import Mathlib

/-!
Shallow embedding of the theme-toggle core of the repository:
the `ThemeSwitcher` logo component (src/components/logos/ThemeSwitcher.tsx)
and the `Nav` bar component, both keeping a local `isDarkMode` boolean
synchronized with the presence of the "dark" class on the document root.
-/

/-- A DOM element's `classList` (a `DOMTokenList`), modelled as its list of
class tokens. -/
structure DOMTokenList where
  tokens : List String
  deriving DecidableEq

/-- Model of `classList.contains(t)`: whether token `t` is in the list. -/
def DOMTokenList.containsTok (l : DOMTokenList) (t : String) : Bool :=
  l.tokens.contains t

/-- Model of `classList.toggle(t)`: remove `t` if present, append it if absent. -/
def DOMTokenList.toggleTok (l : DOMTokenList) (t : String) : DOMTokenList :=
  if l.tokens.contains t then ⟨l.tokens.filter (fun x => x ≠ t)⟩
  else ⟨l.tokens ++ [t]⟩

/-- The document: the only part the code touches is
`document.documentElement.classList`. -/
structure Document where
  documentElement : DOMTokenList
  deriving DecidableEq

/-- Whether the document root currently carries the "dark" marker
(`document.documentElement.classList.contains("dark")`). -/
def darkMarker (doc : Document) : Bool :=
  doc.documentElement.containsTok "dark"

/-- Local state of the `ThemeSwitcher` component: `useState(false)` flag. -/
structure ThemeSwitcherState where
  isDarkMode : Bool
  deriving DecidableEq

/-- Initial `useState(false)` value in `ThemeSwitcher`. -/
def ThemeSwitcher.initialState : ThemeSwitcherState := ⟨false⟩

/-- The `useLayoutEffect` body of `ThemeSwitcher`:
`setIsDarkMode(document.documentElement.classList.contains("dark"))`.
It reads the document and replaces the local flag; the document itself is
returned unchanged, as the effect performs no DOM write. -/
def ThemeSwitcher.mountEffect (doc : Document) (_s : ThemeSwitcherState) :
    Document × ThemeSwitcherState :=
  (doc, ⟨doc.documentElement.containsTok "dark"⟩)

/-- The `img src` chosen by `ThemeSwitcher`:
`isDarkMode ? "/botdw-white.png" : "/botdw-black.png"`. -/
def ThemeSwitcher.render (s : ThemeSwitcherState) : String :=
  if s.isDarkMode then "/botdw-white.png" else "/botdw-black.png"

/-- Local state of the `Nav` component: `useState(false)` flag. -/
structure NavState where
  isDarkMode : Bool
  deriving DecidableEq

/-- Initial `useState(false)` value in `Nav`. -/
def Nav.initialState : NavState := ⟨false⟩

/-- The `useLayoutEffect` body of `Nav`, identical to the one in
`ThemeSwitcher`: read the marker, set the local flag, no DOM write. -/
def Nav.mountEffect (doc : Document) (_s : NavState) : Document × NavState :=
  (doc, ⟨doc.documentElement.containsTok "dark"⟩)

/-- Model of `toggleDark` in `Nav`: `el.classList.toggle("dark")` followed by
`setIsDarkMode((prev) => !prev)`. -/
def toggleDark (doc : Document) (s : NavState) : Document × NavState :=
  (⟨doc.documentElement.toggleTok "dark"⟩, ⟨!s.isDarkMode⟩)

/-- The theme-toggle button label in `Nav`:
`{isDarkMode ? "Light" : "Dark"} Mode`. -/
def Nav.renderLabel (s : NavState) : String :=
  (if s.isDarkMode then "Light" else "Dark") ++ " Mode"

/-- The theme-toggle button icon in `Nav`: `isDarkMode ? <Sun/> : <Moon/>`. -/
inductive NavIcon where
  | sun
  | moon
  deriving DecidableEq

/-- Icon selection in `Nav`'s toggle button. -/
def Nav.renderIcon (s : NavState) : NavIcon :=
  if s.isDarkMode then NavIcon.sun else NavIcon.moon

/-- The whole mounted page: the document plus the local state of the `Nav`
and of the `ThemeSwitcher` it renders. -/
structure SystemState where
  doc : Document
  nav : NavState
  switcher : ThemeSwitcherState
  deriving DecidableEq

/-- Mounting the page: both components start at `useState(false)` and then
their layout effects run once (dependency array `[]`), each reading the
marker into its local flag. -/
def mountSystem (doc : Document) : SystemState :=
  { doc := (Nav.mountEffect doc Nav.initialState).1
    nav := (Nav.mountEffect doc Nav.initialState).2
    switcher := (ThemeSwitcher.mountEffect doc ThemeSwitcher.initialState).2 }

/-- A user click on `Nav`'s theme button runs `toggleDark`. The
`ThemeSwitcher`'s layout effect has an empty dependency array, so it does
not re-run: its local flag is untouched. -/
def clickToggle (st : SystemState) : SystemState :=
  { doc := (toggleDark st.doc st.nav).1
    nav := (toggleDark st.doc st.nav).2
    switcher := st.switcher }

/-- Runs `n` successive clicks on the theme button. -/
def runToggles : Nat → SystemState → SystemState
  | 0, st => st
  | n + 1, st => runToggles n (clickToggle st)

/-- The two link targets read from `@/package.json`. -/
structure Pkg where
  homepage : String
  readmore : String

/-- The result of `window.open(url, target, features)`. -/
structure OpenedWindow where
  url : String
  target : String
  features : String
  deriving DecidableEq

/-- The homepage button's `onClick`:
`window.open(pkg.homepage, "_blank", "noopener noreferrer")`.
It opens a window and leaves the page state untouched. -/
def Nav.clickHomepage (pkg : Pkg) (st : SystemState) :
    SystemState × OpenedWindow :=
  (st, ⟨pkg.homepage, "_blank", "noopener noreferrer"⟩)

/-- The "Read More" button's `onClick`:
`window.open(pkg.readmore, "_blank", "noopener noreferrer")`. -/
def Nav.clickReadMore (pkg : Pkg) (st : SystemState) :
    SystemState × OpenedWindow :=
  (st, ⟨pkg.readmore, "_blank", "noopener noreferrer"⟩)

/-- Toggling a token flips its membership in the token list. -/
theorem DOMTokenList.containsTok_toggleTok (l : DOMTokenList) (t : String) :
    (l.toggleTok t).containsTok t = !(l.containsTok t) := by
  unfold DOMTokenList.toggleTok DOMTokenList.containsTok
  by_cases h : t ∈ l.tokens
  · simp [h, List.mem_filter]
  · simp [h]

/-- The marker after `toggleDark` is the negation of the marker before. -/
theorem darkMarker_toggleDark (doc : Document) (s : NavState) :
    darkMarker (toggleDark doc s).1 = !(darkMarker doc) := by
  unfold darkMarker toggleDark
  exact DOMTokenList.containsTok_toggleTok doc.documentElement "dark"

/-- Helper: `n` clicks keep `Nav`'s local flag in step with the marker,
starting from any agreeing state. -/
theorem runToggles_nav_agrees (n : Nat) :
    ∀ st : SystemState, st.nav.isDarkMode = darkMarker st.doc →
      (runToggles n st).nav.isDarkMode = darkMarker (runToggles n st).doc := by
  induction n with
  | zero => intro st h; exact h
  | succ n ih =>
      intro st h
      apply ih
      show (toggleDark st.doc st.nav).2.isDarkMode =
        darkMarker (toggleDark st.doc st.nav).1
      rw [darkMarker_toggleDark]
      show (!st.nav.isDarkMode) = !darkMarker st.doc
      rw [h]

/-- C1: if the Nav's local flag agrees with the marker, one `toggleDark`
flips the marker (adds it if absent, removes it if present), inverts the
local flag in the same operation, and flips the displayed label and icon
to the opposite of the prior state. -/
theorem toggleDark_flips_state (doc : Document) (nav : NavState)
    (h : nav.isDarkMode = darkMarker doc) :
    darkMarker (toggleDark doc nav).1 = !(darkMarker doc) ∧
    (toggleDark doc nav).2.isDarkMode = !(nav.isDarkMode) ∧
    Nav.renderLabel (toggleDark doc nav).2 =
      (if darkMarker doc then "Dark Mode" else "Light Mode") ∧
    Nav.renderIcon (toggleDark doc nav).2 =
      (if darkMarker doc then NavIcon.moon else NavIcon.sun) := by
  obtain ⟨b⟩ := nav
  have hm : darkMarker doc = b := h.symm
  refine ⟨darkMarker_toggleDark doc ⟨b⟩, rfl, ?_, ?_⟩ <;>
    simp only [toggleDark] <;> rw [hm] <;> cases b <;> decide

/-- Witness for C1 at the concrete light state (empty class list). -/
theorem toggleDark_flips_state_witness :
    darkMarker (toggleDark ⟨⟨[]⟩⟩ ⟨false⟩).1 = !(darkMarker ⟨⟨[]⟩⟩) ∧
    (toggleDark ⟨⟨[]⟩⟩ ⟨false⟩).2.isDarkMode = !((⟨false⟩ : NavState).isDarkMode) ∧
    Nav.renderLabel (toggleDark ⟨⟨[]⟩⟩ ⟨false⟩).2 =
      (if darkMarker ⟨⟨[]⟩⟩ then "Dark Mode" else "Light Mode") ∧
    Nav.renderIcon (toggleDark ⟨⟨[]⟩⟩ ⟨false⟩).2 =
      (if darkMarker ⟨⟨[]⟩⟩ then NavIcon.moon else NavIcon.sun) :=
  toggleDark_flips_state ⟨⟨[]⟩⟩ ⟨false⟩ (by decide)

/-- C2: after the mount-time read, the displayed asset and label match the
marker state: marker present gives "/botdw-white.png" and "Light Mode",
marker absent gives "/botdw-black.png" and "Dark Mode"; the local flag is
exactly the marker state. -/
theorem mount_display_matches_marker (doc : Document) :
    (ThemeSwitcher.mountEffect doc ThemeSwitcher.initialState).2.isDarkMode =
      darkMarker doc ∧
    ThemeSwitcher.render (ThemeSwitcher.mountEffect doc ThemeSwitcher.initialState).2 =
      (if darkMarker doc then "/botdw-white.png" else "/botdw-black.png") ∧
    Nav.renderLabel (Nav.mountEffect doc Nav.initialState).2 =
      (if darkMarker doc then "Light Mode" else "Dark Mode") := by
  refine ⟨rfl, ?_, ?_⟩ <;>
    simp only [ThemeSwitcher.mountEffect, Nav.mountEffect, ThemeSwitcher.render,
      Nav.renderLabel, darkMarker] <;>
    rcases Bool.eq_false_or_eq_true (doc.documentElement.containsTok "dark") with hd | hd <;>
    simp only [hd] <;> decide

/-- C3: from a state where the Nav's local flag agrees with the marker,
two successive `toggleDark` invocations return the marker, the local flag
and the displayed label to their original values. -/
theorem toggle_twice_roundtrip (doc : Document) (nav : NavState)
    (h : nav.isDarkMode = darkMarker doc) :
    darkMarker (toggleDark (toggleDark doc nav).1 (toggleDark doc nav).2).1 =
      darkMarker doc ∧
    (toggleDark (toggleDark doc nav).1 (toggleDark doc nav).2).2.isDarkMode =
      nav.isDarkMode ∧
    Nav.renderLabel (toggleDark (toggleDark doc nav).1 (toggleDark doc nav).2).2 =
      Nav.renderLabel nav := by
  refine ⟨?_, ?_, ?_⟩
  · rw [darkMarker_toggleDark, darkMarker_toggleDark, Bool.not_not]
  · show (!!nav.isDarkMode) = nav.isDarkMode
    exact Bool.not_not _
  · show Nav.renderLabel ⟨!!nav.isDarkMode⟩ = Nav.renderLabel nav
    rw [Bool.not_not]

/-- Witness for C3 at the concrete light state. -/
theorem toggle_twice_roundtrip_witness :
    darkMarker (toggleDark (toggleDark ⟨⟨[]⟩⟩ ⟨false⟩).1 (toggleDark ⟨⟨[]⟩⟩ ⟨false⟩).2).1 =
      darkMarker ⟨⟨[]⟩⟩ ∧
    (toggleDark (toggleDark ⟨⟨[]⟩⟩ ⟨false⟩).1 (toggleDark ⟨⟨[]⟩⟩ ⟨false⟩).2).2.isDarkMode =
      (⟨false⟩ : NavState).isDarkMode ∧
    Nav.renderLabel (toggleDark (toggleDark ⟨⟨[]⟩⟩ ⟨false⟩).1 (toggleDark ⟨⟨[]⟩⟩ ⟨false⟩).2).2 =
      Nav.renderLabel ⟨false⟩ :=
  toggle_twice_roundtrip ⟨⟨[]⟩⟩ ⟨false⟩ (by decide)

/-- C4 counterexample: starting from the light state (empty class list),
mounting and clicking the Nav's toggle makes the marker present and the
label "Light Mode", but the mounted `ThemeSwitcher`'s image does NOT swap
to the dark-mode path: its layout effect does not re-run and its local flag
stays `false`, so it still renders "/botdw-black.png". -/
theorem click_from_light_logo_does_not_swap :
    darkMarker (clickToggle (mountSystem ⟨⟨[]⟩⟩)).doc = true ∧
    Nav.renderLabel (clickToggle (mountSystem ⟨⟨[]⟩⟩)).nav = "Light Mode" ∧
    ThemeSwitcher.render (clickToggle (mountSystem ⟨⟨[]⟩⟩)).switcher ≠
      "/botdw-white.png" := by
  refine ⟨by decide, by decide, by decide⟩

/-- C4 amended: from any light state (marker absent), mounting and clicking
the Nav's toggle makes the marker present and the Nav's label "Light Mode";
the mounted `ThemeSwitcher`'s displayed image, however, remains the
light-mode path "/botdw-black.png". -/
theorem click_from_light_amended (doc : Document)
    (h : darkMarker doc = false) :
    darkMarker (clickToggle (mountSystem doc)).doc = true ∧
    Nav.renderLabel (clickToggle (mountSystem doc)).nav = "Light Mode" ∧
    ThemeSwitcher.render (clickToggle (mountSystem doc)).switcher =
      "/botdw-black.png" := by
  refine ⟨?_, ?_, ?_⟩
  · show darkMarker (toggleDark doc ⟨darkMarker doc⟩).1 = true
    rw [darkMarker_toggleDark, h]
    rfl
  · show Nav.renderLabel ⟨!darkMarker doc⟩ = "Light Mode"
    rw [h]
    decide
  · show ThemeSwitcher.render ⟨darkMarker doc⟩ = "/botdw-black.png"
    rw [h]
    decide

/-- Witness for the amended C4 at the concrete light state. -/
theorem click_from_light_amended_witness :
    darkMarker (clickToggle (mountSystem ⟨⟨[]⟩⟩)).doc = true ∧
    Nav.renderLabel (clickToggle (mountSystem ⟨⟨[]⟩⟩)).nav = "Light Mode" ∧
    ThemeSwitcher.render (clickToggle (mountSystem ⟨⟨[]⟩⟩)).switcher =
      "/botdw-black.png" :=
  click_from_light_amended ⟨⟨[]⟩⟩ (by decide)

/-- C5 counterexample: from the light state, mount Nav together with its
`ThemeSwitcher`, click the toggle once: the reached state has the marker
present but the `ThemeSwitcher`'s local flag still `false` — a mounted
component whose local copy disagrees with the marker. -/
theorem switcher_drifts_after_toggle :
    (clickToggle (mountSystem ⟨⟨[]⟩⟩)).switcher.isDarkMode ≠
      darkMarker (clickToggle (mountSystem ⟨⟨[]⟩⟩)).doc := by
  decide

/-- C5 amended: at every reachable state (mount followed by any number of
toggle clicks) the Nav's own local flag agrees with the marker, and the
`ThemeSwitcher`'s local flag agrees at mount time; the `ThemeSwitcher`'s
flag is not kept in agreement after toggles. -/
theorem nav_agrees_at_reachable (doc : Document) (n : Nat) :
    (runToggles n (mountSystem doc)).nav.isDarkMode =
      darkMarker (runToggles n (mountSystem doc)).doc ∧
    (mountSystem doc).switcher.isDarkMode = darkMarker (mountSystem doc).doc := by
  exact ⟨runToggles_nav_agrees n (mountSystem doc) rfl, rfl⟩

/-- C6: the mount-time read is a deterministic function of the marker
alone: any two independently mounted instances (two `ThemeSwitcher`s, or a
`ThemeSwitcher` and a `Nav`), whatever their prior local state, end up
with the same local flag, namely the marker state. -/
theorem mount_read_deterministic (doc : Document)
    (s1 s2 : ThemeSwitcherState) (s3 : NavState) :
    (ThemeSwitcher.mountEffect doc s1).2.isDarkMode =
      (ThemeSwitcher.mountEffect doc s2).2.isDarkMode ∧
    (ThemeSwitcher.mountEffect doc s1).2.isDarkMode =
      (Nav.mountEffect doc s3).2.isDarkMode ∧
    (ThemeSwitcher.mountEffect doc s1).2.isDarkMode = darkMarker doc :=
  ⟨rfl, rfl, rfl⟩

/-- C7: the mount-time read never modifies the document: both components'
layout effects return the document exactly as given, and the state after
mounting the whole page carries the original document; only the local
flags are updated. -/
theorem mount_read_does_not_write (doc : Document)
    (s1 : ThemeSwitcherState) (s2 : NavState) :
    (ThemeSwitcher.mountEffect doc s1).1 = doc ∧
    (Nav.mountEffect doc s2).1 = doc ∧
    (mountSystem doc).doc = doc ∧
    (ThemeSwitcher.mountEffect doc s1).2.isDarkMode = darkMarker doc ∧
    (Nav.mountEffect doc s2).2.isDarkMode = darkMarker doc :=
  ⟨rfl, rfl, rfl, rfl, rfl⟩

/-- C8: each link control opens exactly its configured URL in a new
browsing context ("_blank") and returns the page state unchanged: the
marker and every component's local theme flag are untouched. -/
theorem link_controls_pass_through (pkg : Pkg) (st : SystemState) :
    (Nav.clickHomepage pkg st).2.url = pkg.homepage ∧
    (Nav.clickHomepage pkg st).2.target = "_blank" ∧
    (Nav.clickHomepage pkg st).1 = st ∧
    (Nav.clickReadMore pkg st).2.url = pkg.readmore ∧
    (Nav.clickReadMore pkg st).2.target = "_blank" ∧
    (Nav.clickReadMore pkg st).1 = st :=
  ⟨rfl, rfl, rfl, rfl, rfl, rfl⟩

/-- C9: both components' local flags are initialized to `false` before the
mount-time read, so for every initial marker state the very first render
shows the light-mode asset "/botdw-black.png" and the "Dark Mode" label;
the marker is reflected only once the layout-effect read has committed. -/
theorem first_render_is_light (doc : Document) :
    ThemeSwitcher.initialState.isDarkMode = false ∧
    Nav.initialState.isDarkMode = false ∧
    ThemeSwitcher.render ThemeSwitcher.initialState = "/botdw-black.png" ∧
    Nav.renderLabel Nav.initialState = "Dark Mode" ∧
    ThemeSwitcher.render (ThemeSwitcher.mountEffect doc ThemeSwitcher.initialState).2 =
      (if darkMarker doc then "/botdw-white.png" else "/botdw-black.png") := by
  refine ⟨rfl, rfl, by decide, by decide, ?_⟩
  simp only [ThemeSwitcher.mountEffect, ThemeSwitcher.render, darkMarker]

/-- C10: `toggleDark` preserves the agreement relation between the Nav's
local flag and the marker: they agree afterwards exactly when they agreed
before, and they disagree afterwards exactly when they disagreed before —
the toggle never re-synchronizes a drifted local copy. -/
theorem toggleDark_preserves_agreement (doc : Document) (nav : NavState) :
    ((toggleDark doc nav).2.isDarkMode = darkMarker (toggleDark doc nav).1 ↔
      nav.isDarkMode = darkMarker doc) ∧
    ((toggleDark doc nav).2.isDarkMode ≠ darkMarker (toggleDark doc nav).1 ↔
      nav.isDarkMode ≠ darkMarker doc) := by
  have h1 : (toggleDark doc nav).2.isDarkMode = !nav.isDarkMode := rfl
  rw [h1, darkMarker_toggleDark]
  cases nav.isDarkMode <;> cases hd : darkMarker doc <;> simp [hd]
